import Mathlib

/-!
Verification of the SoundScape geospatial recording server (src/server.js).

The development shallowly embeds the two route handlers and their helpers:

* the distance expression of the SQL query run by `GET /api/recordings`
  (spherical law of cosines, `6371 * acos(...)`), together with the
  filter / order / limit pipeline `WHERE distance < :radius ORDER BY
  distance LIMIT 100` and the parameter handling
  (`radius=0.25` destructuring default, `parseFloat(x) || d` coercions);
* the `POST /api/recordings` handler: the missing-file and
  missing-coordinates checks, `Sound.create`, and the compensating
  `fs.unlink` calls of the cleanup paths;
* the multer upload gate configured in the file (`fileFilter` allow-list,
  `fileSize` limit) and the final error-handling middleware.

Numbers are modelled as real numbers, stateful effects (the database
write, the filesystem unlink) as explicit outcome parameters.
-/

namespace SoundScape

/-- Degree-to-radian conversion, the SQLite `radians()` function used inside the
distance expression of the `GET /api/recordings` query. -/
noncomputable def radians (x : ℝ) : ℝ := x * Real.pi / 180

/-- The `distance` column computed by the SQL subquery in the
`GET /api/recordings` handler (src/server.js lines 150-156):
`6371 * acos(cos(radians(:latitude)) * cos(radians(lat)) *
cos(radians(lng) - radians(:longitude)) + sin(radians(:latitude)) *
sin(radians(lat)))`, with `:latitude`/`:longitude` the query center and
`lat`/`lng` the coordinate of the stored row, all in degrees. -/
noncomputable def sqlDistance (latitude longitude lat lng : ℝ) : ℝ :=
  6371 * Real.arccos
    (Real.cos (radians latitude) * Real.cos (radians lat) *
        Real.cos (radians lng - radians longitude) +
      Real.sin (radians latitude) * Real.sin (radians lat))

/-- Modelled from the spec: the haversine great-circle distance
`2 * R * asin(sqrt(sin^2((lat2-lat1)/2) + cos(lat1) * cos(lat2) *
sin^2((lng2-lng1)/2)))` with `R = 6371` km and angles in radians,
applied to the same degree inputs as `sqlDistance` (center first,
stored row second). Used only to compare the SQL expression against
the formula of the spec. -/
noncomputable def haversineSpec (latitude longitude lat lng : ℝ) : ℝ :=
  2 * 6371 * Real.arcsin (Real.sqrt
    (Real.sin ((radians lat - radians latitude) / 2) ^ 2 +
      Real.cos (radians latitude) * Real.cos (radians lat) *
        Real.sin ((radians lng - radians longitude) / 2) ^ 2))

/-- The law-of-cosines argument is at most 1, for arbitrary real angles. -/
lemma cosFormula_le_one (a b d : ℝ) :
    Real.cos a * Real.cos b * Real.cos d + Real.sin a * Real.sin b ≤ 1 := by
  have h1 : 0 ≤ (1 - Real.cos d) * (Real.cos a + Real.cos b) ^ 2 :=
    mul_nonneg (by nlinarith [Real.cos_le_one d]) (sq_nonneg _)
  have h2 : 0 ≤ (1 + Real.cos d) * (Real.cos a - Real.cos b) ^ 2 :=
    mul_nonneg (by nlinarith [Real.neg_one_le_cos d]) (sq_nonneg _)
  nlinarith [sq_nonneg (Real.sin a - Real.sin b), Real.sin_sq_add_cos_sq a,
    Real.sin_sq_add_cos_sq b]

/-- The law-of-cosines argument is at least -1, for arbitrary real angles. -/
lemma neg_one_le_cosFormula (a b d : ℝ) :
    -1 ≤ Real.cos a * Real.cos b * Real.cos d + Real.sin a * Real.sin b := by
  have h1 : 0 ≤ (1 - Real.cos d) * (Real.cos a - Real.cos b) ^ 2 :=
    mul_nonneg (by nlinarith [Real.cos_le_one d]) (sq_nonneg _)
  have h2 : 0 ≤ (1 + Real.cos d) * (Real.cos a + Real.cos b) ^ 2 :=
    mul_nonneg (by nlinarith [Real.neg_one_le_cos d]) (sq_nonneg _)
  nlinarith [sq_nonneg (Real.sin a + Real.sin b), Real.sin_sq_add_cos_sq a,
    Real.sin_sq_add_cos_sq b]

/-- The haversine argument rewritten through the law-of-cosines argument. -/
lemma havArg_eq (a b d : ℝ) :
    Real.sin ((b - a) / 2) ^ 2 + Real.cos a * Real.cos b * Real.sin (d / 2) ^ 2 =
      (1 - (Real.cos a * Real.cos b * Real.cos d + Real.sin a * Real.sin b)) / 2 := by
  have e1 : (2 : ℝ) * ((b - a) / 2) = b - a := by ring
  have e2 : (2 : ℝ) * (d / 2) = d := by ring
  have hba : Real.sin ((b - a) / 2) ^ 2 = 1 / 2 - Real.cos (b - a) / 2 := by
    rw [Real.sin_sq_eq_half_sub, e1]
  have hd : Real.sin (d / 2) ^ 2 = 1 / 2 - Real.cos d / 2 := by
    rw [Real.sin_sq_eq_half_sub, e2]
  rw [hba, hd, Real.cos_sub]
  ring

/-- Half-angle form of `arccos` on `[-1, 1]`. -/
lemma arccos_eq_two_arcsin (x : ℝ) (h1 : -1 ≤ x) (h2 : x ≤ 1) :
    Real.arccos x = 2 * Real.arcsin (Real.sqrt ((1 - x) / 2)) := by
  have h0 : 0 ≤ Real.arccos x := Real.arccos_nonneg x
  have hpi : Real.arccos x ≤ Real.pi := Real.arccos_le_pi x
  have hsin : 0 ≤ Real.sin (Real.arccos x / 2) :=
    Real.sin_nonneg_of_nonneg_of_le_pi (by linarith) (by linarith [Real.pi_pos])
  have hs : Real.sin (Real.arccos x / 2) ^ 2 = (1 - x) / 2 := by
    have h2c : (2 : ℝ) * (Real.arccos x / 2) = Real.arccos x := by ring
    rw [Real.sin_sq_eq_half_sub, h2c, Real.cos_arccos h1 h2]
    ring
  have hsqrt : Real.sqrt ((1 - x) / 2) = Real.sin (Real.arccos x / 2) := by
    rw [← hs, Real.sqrt_sq hsin]
  rw [hsqrt, Real.arcsin_sin (by linarith [Real.pi_pos]) (by linarith)]
  ring

/-- C5: for all query centers and stored coordinates, the spherical-law-of-cosines
expression of the SQL query `6371 * acos(cos(lat1)cos(lat2)
cos(lng2-lng1) + sin(lat1)sin(lat2))` equals the haversine
distance `2 * 6371 * asin(sqrt(sin^2((lat2-lat1)/2) + cos(lat1)cos(lat2)
sin^2((lng2-lng1)/2)))`, in particular on all valid coordinate pairs. -/
theorem sqlDistance_eq_haversineSpec (latitude longitude lat lng : ℝ) :
    sqlDistance latitude longitude lat lng = haversineSpec latitude longitude lat lng := by
  unfold sqlDistance haversineSpec
  set a := radians latitude with ha
  set b := radians lat with hb
  set d := radians lng - radians longitude with hdd
  have hle := cosFormula_le_one a b d
  have hge := neg_one_le_cosFormula a b d
  rw [havArg_eq a b d,
    arccos_eq_two_arcsin (Real.cos a * Real.cos b * Real.cos d +
        Real.sin a * Real.sin b) hge hle]
  ring

/-- A stored row of the `Sounds` table, restricted to the columns the
proximity search reads (the other columns ride along unchanged). -/
structure SoundRow where
  lat : ℝ
  lng : ℝ

/-- A row of the SQL subquery result: the stored row together with its
position in table (insertion) order and the computed `distance` column. -/
structure Ranked where
  idx : ℕ
  row : SoundRow
  distance : ℝ

/-- One deterministic refinement of `ORDER BY distance`: ascending
distance with ties broken by table position. The SQL itself has no
secondary sort key and SQLite leaves the relative order of equal keys
undefined, so this tie-break is only a choice of one admissible output
(see `orderByResult`); the claims proved over it do not depend on the
tie order. -/
noncomputable def rankedLE (a b : Ranked) : Bool :=
  decide (a.distance < b.distance ∨ (a.distance = b.distance ∧ a.idx ≤ b.idx))

/-- The subquery `SELECT *, (6371 * acos(...)) AS distance FROM Sounds`:
each stored row, starting at position `i`, paired with its distance from
the query center. -/
noncomputable def withDistanceFrom (latitude longitude : ℝ) :
    ℕ → List SoundRow → List Ranked
  | _, [] => []
  | i, r :: rs =>
    ⟨i, r, sqlDistance latitude longitude r.lat r.lng⟩ ::
      withDistanceFrom latitude longitude (i + 1) rs

/-- The subquery over the whole table, positions starting at 0. -/
noncomputable def withDistance (latitude longitude : ℝ) (rows : List SoundRow) :
    List Ranked :=
  withDistanceFrom latitude longitude 0 rows

/-- The full query of the `GET /api/recordings` handler:
`WHERE distance < :radius ORDER BY distance LIMIT 100`, with `radiusRepl`
the `:radius` replacement value the handler passes in. -/
noncomputable def recordingsQuery (latitude longitude radiusRepl : ℝ)
    (rows : List SoundRow) : List Ranked :=
  (((withDistance latitude longitude rows).filter fun r =>
      decide (r.distance < radiusRepl)).mergeSort rankedLE).take 100

/-- A query-string parameter as the handler observes it: absent (or the
empty string, which is falsy), present but not parsing to a number
(`parseFloat` yields NaN), or parsing to the number `x`. -/
inductive QueryParam
  | absent
  | nonNumeric
  | numeric (x : ℝ)

/-- The `!lat` / `!lng` truthiness test: absent or empty is falsy, any
other string (including "0") is truthy. -/
def QueryParam.truthy : QueryParam → Bool
  | .absent => false
  | .nonNumeric => true
  | .numeric _ => true

/-- `parseFloat(v) || 0` (src/server.js lines 142-143): NaN and 0 both
give 0, any other parsed value passes through. -/
noncomputable def coordOf : QueryParam → ℝ
  | .absent => 0
  | .nonNumeric => 0
  | .numeric x => if x = 0 then 0 else x

/-- The radius the handler computes (src/server.js lines 135 and 144):
the destructuring default `radius=0.25` applies when the parameter is
absent, then `parseFloat(radius) || 0.5` replaces NaN or 0 by 0.5. -/
noncomputable def searchRadiusOf : QueryParam → ℝ
  | .absent => 0.25
  | .nonNumeric => 0.5
  | .numeric x => if x = 0 then 0.5 else x

/-- Responses of the `GET /api/recordings` handler. -/
inductive GetResponse
  | badRequest (error : String)
  | ok (results : List Ranked)

/-- The `GET /api/recordings` handler: reject with 400 Missing
coordinates when lat or lng is falsy, otherwise run the query with the
coerced center and `searchRadius / 1000` as the `:radius` replacement. -/
noncomputable def getRecordings (lat lng radius : QueryParam)
    (rows : List SoundRow) : GetResponse :=
  if !lat.truthy || !lng.truthy then .badRequest "Missing coordinates"
  else
    .ok (recordingsQuery (coordOf lat) (coordOf lng)
      (searchRadiusOf radius / 1000) rows)

/-- The embedded ORDER BY relation is transitive. -/
lemma rankedLE_trans (a b c : Ranked) :
    rankedLE a b = true → rankedLE b c = true → rankedLE a c = true := by
  simp only [rankedLE, decide_eq_true_eq]
  rintro (h1 | ⟨h1e, h1i⟩) (h2 | ⟨h2e, h2i⟩)
  · exact Or.inl (lt_trans h1 h2)
  · exact Or.inl (h1.trans_eq h2e)
  · exact Or.inl (h1e.trans_lt h2)
  · exact Or.inr ⟨h1e.trans h2e, le_trans h1i h2i⟩

/-- The embedded ORDER BY relation is total. -/
lemma rankedLE_total (a b : Ranked) : (rankedLE a b || rankedLE b a) = true := by
  simp only [rankedLE, Bool.or_eq_true, decide_eq_true_eq]
  rcases lt_trichotomy a.distance b.distance with h | h | h
  · exact Or.inl (Or.inl h)
  · rcases le_total a.idx b.idx with hi | hi
    · exact Or.inl (Or.inr ⟨h, hi⟩)
    · exact Or.inr (Or.inr ⟨h.symm, hi⟩)
  · exact Or.inr (Or.inl h)

/-- Unpacking the embedded ORDER BY relation. -/
lemma rankedLE_le {a b : Ranked} (h : rankedLE a b = true) :
    a.distance ≤ b.distance ∧ (a.distance = b.distance → a.idx ≤ b.idx) := by
  simp only [rankedLE, decide_eq_true_eq] at h
  rcases h with h | ⟨he, hi⟩
  · exact ⟨le_of_lt h, fun he => absurd he (ne_of_lt h)⟩
  · exact ⟨le_of_eq he, fun _ => hi⟩

/-- What the SQL `ORDER BY distance LIMIT 100` guarantees for a filtered
row set: the result is the 100-prefix of some permutation of the
filtered rows that is non-decreasing in the distance column. SQLite
specifies no relative order for rows with equal sort keys (the query has
no secondary key), so any such permutation is an admissible output. -/
def orderByResult (filtered result : List Ranked) : Prop :=
  ∃ sorted : List Ranked,
    sorted.Perm filtered ∧
    sorted.Pairwise (fun a b => a.distance ≤ b.distance) ∧
    result = sorted.take 100

/-- The deterministic pipeline `recordingsQuery` produces one admissible
`ORDER BY distance LIMIT 100` output for its filtered rows. -/
lemma recordingsQuery_orderByResult
    (latitude longitude radiusRepl : ℝ) (rows : List SoundRow) :
    orderByResult
      ((withDistance latitude longitude rows).filter fun r =>
        decide (r.distance < radiusRepl))
      (recordingsQuery latitude longitude radiusRepl rows) := by
  refine ⟨((withDistance latitude longitude rows).filter fun r =>
      decide (r.distance < radiusRepl)).mergeSort rankedLE,
    List.mergeSort_perm _ _, ?_, ?_⟩
  · exact (List.sorted_mergeSort rankedLE_trans rankedLE_total _).imp
      (fun h => (rankedLE_le h).1)
  · rfl

/-- At coinciding query center and row coordinate the distance column is
zero, since the law-of-cosines argument is `cos 0 = 1` and `acos 1 = 0`. -/
lemma sqlDistance_self_zero : sqlDistance 0 0 0 0 = 0 := by
  have h0 : radians 0 = 0 := by simp [radians]
  unfold sqlDistance
  rw [h0]
  simp [Real.arccos_one]

/-- C6 (counterexample): with two recordings stored at (0, 0) and the
query centered there with radius 0.5, both rows pass the filter at equal
distance 0, and the output listing them in reverse insertion order is an
admissible `ORDER BY distance LIMIT 100` result: the SQL does not break
ties by insertion order. -/
theorem orderBy_ties_can_invert :
    orderByResult
      ((withDistance 0 0 [⟨0, 0⟩, ⟨0, 0⟩]).filter fun r =>
        decide (r.distance < 0.5 / 1000))
      [⟨1, ⟨0, 0⟩, sqlDistance 0 0 0 0⟩, ⟨0, ⟨0, 0⟩, sqlDistance 0 0 0 0⟩] ∧
    ¬ List.Pairwise (fun a b : Ranked => a.distance = b.distance → a.idx ≤ b.idx)
      [⟨1, ⟨0, 0⟩, sqlDistance 0 0 0 0⟩, ⟨0, ⟨0, 0⟩, sqlDistance 0 0 0 0⟩] := by
  have hlt : decide (sqlDistance 0 0 0 0 < 0.5 / 1000) = true := by
    rw [sqlDistance_self_zero]
    norm_num
  have hfiltered :
      ((withDistance 0 0 [⟨0, 0⟩, ⟨0, 0⟩]).filter fun r =>
          decide (r.distance < 0.5 / 1000)) =
        [⟨0, ⟨0, 0⟩, sqlDistance 0 0 0 0⟩, ⟨1, ⟨0, 0⟩, sqlDistance 0 0 0 0⟩] := by
    simp [withDistance, withDistanceFrom, List.filter, hlt]
  constructor
  · refine ⟨[⟨1, ⟨0, 0⟩, sqlDistance 0 0 0 0⟩, ⟨0, ⟨0, 0⟩, sqlDistance 0 0 0 0⟩],
      ?_, ?_, ?_⟩
    · rw [hfiltered]
      exact List.Perm.swap _ _ _
    · simp
    · exact (List.take_of_length_le (by simp)).symm
  · intro h
    have h10 := (List.pairwise_cons.mp h).1
      ⟨0, ⟨0, 0⟩, sqlDistance 0 0 0 0⟩ (by simp) rfl
    exact absurd h10 (by decide)

/-- C6 amended: every result the query may return — the 100-prefix of
some distance-sorted permutation of the filtered rows, the relative
order of equal distances being unspecified — is sorted non-decreasing by
the distance column and holds at most 100 items even when more rows pass
the filter. -/
theorem orderByResult_sorted_limited
    (latitude longitude radiusRepl : ℝ) (rows : List SoundRow)
    (result : List Ranked)
    (h : orderByResult
      ((withDistance latitude longitude rows).filter fun r =>
        decide (r.distance < radiusRepl)) result) :
    result.length ≤ 100 ∧
    result.Pairwise (fun a b => a.distance ≤ b.distance) := by
  obtain ⟨sorted, hperm, hsorted, hres⟩ := h
  subst hres
  exact ⟨List.length_take_le _ _, hsorted.sublist (List.take_sublist _ _)⟩

/-- Closed instance of `orderByResult_sorted_limited`: the one-recording
catalog at (0, 0), searched from (0, 0) with replacement radius 1. -/
theorem orderByResult_sorted_limited_witness :
    orderByResult
      ((withDistance 0 0 [⟨0, 0⟩]).filter fun r => decide (r.distance < 1))
      [⟨0, ⟨0, 0⟩, sqlDistance 0 0 0 0⟩] ∧
    (([⟨0, ⟨0, 0⟩, sqlDistance 0 0 0 0⟩] : List Ranked).length ≤ 100 ∧
      ([⟨0, ⟨0, 0⟩, sqlDistance 0 0 0 0⟩] : List Ranked).Pairwise
        (fun a b => a.distance ≤ b.distance)) := by
  have hlt : decide (sqlDistance 0 0 0 0 < 1) = true := by
    rw [sqlDistance_self_zero]
    norm_num
  have hfiltered :
      ((withDistance 0 0 [⟨0, 0⟩]).filter fun r => decide (r.distance < 1)) =
        [⟨0, ⟨0, 0⟩, sqlDistance 0 0 0 0⟩] := by
    simp [withDistance, withDistanceFrom, List.filter, hlt]
  have h : orderByResult
      ((withDistance 0 0 [⟨0, 0⟩]).filter fun r => decide (r.distance < 1))
      [⟨0, ⟨0, 0⟩, sqlDistance 0 0 0 0⟩] := by
    refine ⟨[⟨0, ⟨0, 0⟩, sqlDistance 0 0 0 0⟩], ?_, by simp, ?_⟩
    · rw [hfiltered]
    · exact (List.take_of_length_le (by simp)).symm
  exact ⟨h, orderByResult_sorted_limited 0 0 1 [⟨0, 0⟩] _ h⟩

/-- Distances computed by the query are nonnegative, since `acos` lands
in `[0, pi]`. -/
lemma sqlDistance_nonneg (latitude longitude lat lng : ℝ) :
    0 ≤ sqlDistance latitude longitude lat lng :=
  mul_nonneg (by norm_num) (Real.arccos_nonneg _)

/-- A nonpositive `:radius` replacement filters out every row. -/
lemma filter_nonpos_radius (latitude longitude radiusRepl : ℝ)
    (h : radiusRepl ≤ 0) :
    ∀ (i : ℕ) (rows : List SoundRow),
      (withDistanceFrom latitude longitude i rows).filter
        (fun r => decide (r.distance < radiusRepl)) = []
  | _, [] => rfl
  | i, r :: rs => by
    have hd : ¬ (sqlDistance latitude longitude r.lat r.lng < radiusRepl) := by
      have := sqlDistance_nonneg latitude longitude r.lat r.lng
      linarith
    simp [withDistanceFrom, List.filter, hd,
      filter_nonpos_radius latitude longitude radiusRepl h (i + 1) rs]

/-- The empty catalog yields the empty result. -/
lemma recordingsQuery_nil (latitude longitude radiusRepl : ℝ) :
    recordingsQuery latitude longitude radiusRepl [] = [] := by
  simp [recordingsQuery, withDistance, withDistanceFrom]

/-- C10: the radius parameter is never rejected: a non-numeric or zero
radius is replaced by 0.5 km, and a negative radius is used as-is, in
which case the query matches nothing and the handler answers 200 with
the empty array. -/
theorem radius_never_rejected (x : ℝ) (hx : x < 0) (p q : ℝ)
    (rows : List SoundRow) :
    searchRadiusOf .nonNumeric = 0.5 ∧
    searchRadiusOf (.numeric 0) = 0.5 ∧
    searchRadiusOf (.numeric x) = x ∧
    getRecordings (.numeric p) (.numeric q) (.numeric x) rows = .ok [] := by
  have hxne : x ≠ 0 := ne_of_lt hx
  refine ⟨rfl, by simp [searchRadiusOf], by simp [searchRadiusOf, hxne], ?_⟩
  have hrepl :
      (((withDistance (coordOf (.numeric p)) (coordOf (.numeric q)) rows).filter
          fun r => decide (r.distance < searchRadiusOf (.numeric x) / 1000)) = []) := by
    have hle : searchRadiusOf (.numeric x) / 1000 ≤ 0 := by
      simp only [searchRadiusOf, if_neg hxne]
      linarith
    exact filter_nonpos_radius _ _ _ hle 0 rows
  simp [getRecordings, QueryParam.truthy, recordingsQuery, hrepl]

/-- Closed instance of `radius_never_rejected` at radius -1, center
(1, 2) and a one-row catalog. -/
theorem radius_never_rejected_witness :
    ((-1 : ℝ) < 0) ∧
    (searchRadiusOf .nonNumeric = 0.5 ∧ searchRadiusOf (.numeric 0) = 0.5 ∧
      searchRadiusOf (.numeric (-1)) = -1 ∧
      getRecordings (.numeric 1) (.numeric 2) (.numeric (-1)) [⟨0, 0⟩] = .ok []) :=
  ⟨by norm_num, radius_never_rejected (-1) (by norm_num) 1 2 [⟨0, 0⟩]⟩

/-- At center (0, 0) the distance to the row (0, 0.001) reduces to
`6371 * radians 0.001`, since the law-of-cosines argument collapses to
`cos (radians 0.001)` and that angle lies in `[0, pi]`. -/
lemma sqlDistance_small_example :
    sqlDistance 0 0 0 0.001 = 6371 * radians 0.001 := by
  have h0 : radians 0 = 0 := by simp [radians]
  have hr : 0 ≤ radians 0.001 := by
    unfold radians
    positivity
  have hrpi : radians 0.001 ≤ Real.pi := by
    unfold radians
    nlinarith [Real.pi_pos]
  unfold sqlDistance
  rw [h0]
  simp only [Real.cos_zero, Real.sin_zero, one_mul, zero_mul, mul_zero,
    add_zero, sub_zero]
  rw [Real.arccos_cos hr hrpi]

/-- Numeric bounds for the example distance: it is about 0.111 km, hence
at least 0.0005 and strictly below 0.5. -/
lemma sqlDistance_small_example_bounds :
    0.0005 ≤ sqlDistance 0 0 0 0.001 ∧ sqlDistance 0 0 0 0.001 < 0.5 := by
  rw [sqlDistance_small_example]
  unfold radians
  constructor
  · nlinarith [Real.pi_gt_d2]
  · nlinarith [Real.pi_lt_d2]

/-- C1: with the catalog holding one recording at (0, 0.001) and the
query center (0, 0) with radius 0.5 km, the distance of the recording
(about 0.111 km) is strictly inside the radius, yet the handler returns
the empty list: the WHERE clause compares the km-valued distance column
against `searchRadius / 1000` = 0.0005, not against 0.5. -/
theorem search_omits_recording_within_radius :
    sqlDistance 0 0 0 0.001 < 0.5 ∧
    ¬ (sqlDistance 0 0 0 0.001 < 0.5 / 1000) ∧
    getRecordings (.numeric 0) (.numeric 0) (.numeric 0.5) [⟨0, 0.001⟩] = .ok [] := by
  obtain ⟨hlo, hhi⟩ := sqlDistance_small_example_bounds
  have hnot : ¬ (sqlDistance 0 0 0 0.001 < 0.5 / 1000) := by
    intro h
    linarith
  refine ⟨hhi, hnot, ?_⟩
  have hhalf : (0.5 : ℝ) ≠ 0 := by norm_num
  have hcoord : coordOf (.numeric 0) = 0 := by simp [coordOf]
  have hradius : searchRadiusOf (.numeric 0.5) = 0.5 := by
    simp [searchRadiusOf, hhalf]
  simp [getRecordings, QueryParam.truthy, hcoord, hradius, recordingsQuery,
    withDistance, withDistanceFrom, List.filter, hnot]

/-- C3: when the radius parameter is omitted, the radius the handler uses is the
destructuring default 0.25, not the 0.5 stated by the spec and by the
comment in the code itself (the `|| 0.5` fallback is unreachable on omission). -/
theorem searchRadius_default_is_quarter :
    searchRadiusOf .absent = 0.25 ∧ (0.25 : ℝ) ≠ 0.5 := by
  exact ⟨rfl, by norm_num⟩

/-- C7 (counterexample): a request whose lat is present but non-numeric
is not rejected: `parseFloat(lat) || 0` coerces the center latitude to 0
and the query executes, answering 200 with the query result. -/
theorem nonNumeric_center_executes :
    getRecordings .nonNumeric (.numeric 5) (.numeric 1) [⟨0, 0⟩] =
      .ok (recordingsQuery 0 5 (1 / 1000) [⟨0, 0⟩]) := by
  have h5 : (5 : ℝ) ≠ 0 := by norm_num
  have h1 : (1 : ℝ) ≠ 0 := by norm_num
  simp [getRecordings, QueryParam.truthy, coordOf, searchRadiusOf, h5, h1]

/-- C7 amended: a request missing lat or lng is answered 400
`Missing coordinates`; a present-but-non-numeric lat or lng is coerced to
center coordinate 0 and the query executes; an empty catalog yields 200
with the empty array, not an error. -/
theorem getRecordings_validation (p q radiusp : QueryParam)
    (rows : List SoundRow) :
    getRecordings .absent q radiusp rows = .badRequest "Missing coordinates" ∧
    getRecordings p .absent radiusp rows = .badRequest "Missing coordinates" ∧
    coordOf .nonNumeric = 0 ∧
    (p.truthy = true → q.truthy = true →
      getRecordings p q radiusp rows =
        .ok (recordingsQuery (coordOf p) (coordOf q)
          (searchRadiusOf radiusp / 1000) rows)) ∧
    (p.truthy = true → q.truthy = true →
      getRecordings p q radiusp [] = .ok []) := by
  refine ⟨by simp [getRecordings, QueryParam.truthy], ?_, rfl, ?_, ?_⟩
  · cases p <;> simp [getRecordings, QueryParam.truthy]
  · intro hp hq
    simp [getRecordings, hp, hq]
  · intro hp hq
    simp [getRecordings, hp, hq, recordingsQuery_nil]

/-- Closed instance of `getRecordings_validation` at numeric center
(1, 2) with radius 3. -/
theorem getRecordings_validation_witness :
    (QueryParam.truthy (.numeric 1) = true ∧ QueryParam.truthy (.numeric 2) = true) ∧
    (getRecordings .absent (.numeric 2) (.numeric 3) [⟨4, 5⟩] =
        .badRequest "Missing coordinates" ∧
      getRecordings (.numeric 1) .absent (.numeric 3) [⟨4, 5⟩] =
        .badRequest "Missing coordinates" ∧
      coordOf .nonNumeric = 0 ∧
      (QueryParam.truthy (.numeric 1) = true → QueryParam.truthy (.numeric 2) = true →
        getRecordings (.numeric 1) (.numeric 2) (.numeric 3) [⟨4, 5⟩] =
          .ok (recordingsQuery (coordOf (.numeric 1)) (coordOf (.numeric 2))
            (searchRadiusOf (.numeric 3) / 1000) [⟨4, 5⟩])) ∧
      (QueryParam.truthy (.numeric 1) = true → QueryParam.truthy (.numeric 2) = true →
        getRecordings (.numeric 1) (.numeric 2) (.numeric 3) [] = .ok [])) :=
  ⟨⟨rfl, rfl⟩, getRecordings_validation (.numeric 1) (.numeric 2) (.numeric 3) [⟨4, 5⟩]⟩

/-- Outcome of the `Sound.create` metadata write: the row commits, or the
underlying persistence fails and the call throws. -/
inductive CreateOutcome
  | ok
  | fail

/-- Outcome of an `fs.unlink` call: the file is removed, or the call
throws (the promise rejects). -/
inductive UnlinkOutcome
  | ok
  | fail

/-- An ingestion request as the `POST /api/recordings` handler sees it
after multer: whether a file was accepted and written, and the parsed
`lat` / `lng` body fields (`none` models an absent or falsy field). -/
structure IngestReq where
  hasFile : Bool
  lat : Option ℝ
  lng : Option ℝ

/-- The environment of one ingestion request: how the database write and
the filesystem unlink behave during it. -/
structure IngestEnv where
  createOutcome : CreateOutcome
  unlinkOutcome : UnlinkOutcome

/-- Responses of the `POST /api/recordings` handler. -/
inductive PostResponse
  | noFile                 -- 400 No audio file uploaded
  | missingCoords          -- 400 Missing coordinates
  | created (lat lng : ℝ)  -- 201 with the new recording
  | saveFailed             -- 500 Failed to save recording

/-- Final state of one ingestion request: the HTTP response the handler
produced (`none` when a rejected `fs.unlink` promise escapes the handler
and the handler sends no response of its own), whether the uploaded blob
still exists in the upload directory, and the persisted row, if any,
with its stored coordinates. -/
structure IngestOutcome where
  response : Option PostResponse
  blobExists : Bool
  row : Option (ℝ × ℝ)

/-- The `POST /api/recordings` handler (src/server.js lines 103-131).
multer has already run: when `hasFile` the blob is on disk. The handler
rejects a missing file with 400, unlinks the blob and rejects with 400
on a falsy lat or lng, otherwise calls `Sound.create` with the parsed
coordinates (no range check) and answers 201; a failed create is caught,
the blob unlinked and 500 returned. Both `await fs.unlink` calls are
unguarded: when the unlink rejects, the rejection escapes (the one in the
try block lands in the catch block, whose own unlink fails the same way),
so no handler response is produced and the blob survives. -/
def ingest (req : IngestReq) (env : IngestEnv) : IngestOutcome :=
  if ¬ req.hasFile then ⟨some .noFile, false, none⟩
  else
    match req.lat, req.lng with
    | none, _ =>
      match env.unlinkOutcome with
      | .ok => ⟨some .missingCoords, false, none⟩
      | .fail => ⟨none, true, none⟩
    | some _, none =>
      match env.unlinkOutcome with
      | .ok => ⟨some .missingCoords, false, none⟩
      | .fail => ⟨none, true, none⟩
    | some la, some ln =>
      match env.createOutcome with
      | .ok => ⟨some (.created la ln), true, some (la, ln)⟩
      | .fail =>
        match env.unlinkOutcome with
        | .ok => ⟨some .saveFailed, false, none⟩
        | .fail => ⟨none, true, none⟩

/-- C2: when the compensating unlink succeeds, every completed ingestion
request leaves a catalog row exactly when it leaves a blob: the
missing-coordinates rejection and the failed-create path both delete the
already-written blob before their 400 / 500 error response, so neither
an orphaned blob nor a blob-less row survives. -/
theorem ingest_row_iff_blob (req : IngestReq) (env : IngestEnv)
    (h : env.unlinkOutcome = .ok) :
    ((ingest req env).row.isSome ↔ (ingest req env).blobExists = true) ∧
    (req.hasFile = true → (req.lat.isNone ∨ req.lng.isNone) →
      (ingest req env).response = some .missingCoords ∧
        (ingest req env).blobExists = false ∧ (ingest req env).row = none) ∧
    (req.hasFile = true → req.lat.isSome → req.lng.isSome →
      env.createOutcome = .fail →
      (ingest req env).response = some .saveFailed ∧
        (ingest req env).blobExists = false ∧ (ingest req env).row = none) := by
  obtain ⟨hasFile, lat, lng⟩ := req
  obtain ⟨co, uo⟩ := env
  cases uo with
  | fail => cases h
  | ok =>
    cases hasFile <;> cases lat <;> cases lng <;> cases co <;>
      simp [ingest]

/-- Closed instance of `ingest_row_iff_blob`: a request with a file and
coordinates (1, 2) whose `Sound.create` fails, with a working unlink. -/
theorem ingest_row_iff_blob_witness :
    (IngestEnv.mk .fail .ok).unlinkOutcome = .ok ∧
    (((ingest ⟨true, some 1, some 2⟩ ⟨.fail, .ok⟩).row.isSome ↔
        (ingest ⟨true, some 1, some 2⟩ ⟨.fail, .ok⟩).blobExists = true) ∧
      ((true : Bool) = true → ((some (1 : ℝ)).isNone ∨ (some (2 : ℝ)).isNone) →
        (ingest ⟨true, some 1, some 2⟩ ⟨.fail, .ok⟩).response = some .missingCoords ∧
          (ingest ⟨true, some 1, some 2⟩ ⟨.fail, .ok⟩).blobExists = false ∧
          (ingest ⟨true, some 1, some 2⟩ ⟨.fail, .ok⟩).row = none) ∧
      ((true : Bool) = true → (some (1 : ℝ)).isSome → (some (2 : ℝ)).isSome →
        (IngestEnv.mk .fail .ok).createOutcome = .fail →
        (ingest ⟨true, some 1, some 2⟩ ⟨.fail, .ok⟩).response = some .saveFailed ∧
          (ingest ⟨true, some 1, some 2⟩ ⟨.fail, .ok⟩).blobExists = false ∧
          (ingest ⟨true, some 1, some 2⟩ ⟨.fail, .ok⟩).row = none)) :=
  ⟨rfl, ingest_row_iff_blob ⟨true, some 1, some 2⟩ ⟨.fail, .ok⟩ rfl⟩

/-- C4 (counterexample): `lat=91` is outside `[-90, 90]`, yet the upload
is not rejected: the handler persists the row with lat 91 together with
its blob and answers 201. -/
theorem out_of_range_lat_persisted :
    (ingest ⟨true, some 91, some 0⟩ ⟨.ok, .ok⟩).response = some (.created 91 0) ∧
    (ingest ⟨true, some 91, some 0⟩ ⟨.ok, .ok⟩).row = some (91, 0) ∧
    (ingest ⟨true, some 91, some 0⟩ ⟨.ok, .ok⟩).blobExists = true ∧
    ¬ ((91 : ℝ) ≤ 90) := by
  refine ⟨rfl, rfl, rfl, by norm_num⟩

/-- C4 amended: the handler performs no coordinate range validation: for
every parsed lat and lng, in range or not, a request with a file whose
`Sound.create` succeeds persists the row and the blob and answers 201. -/
theorem ingest_no_range_check (la ln : ℝ) :
    ingest ⟨true, some la, some ln⟩ ⟨.ok, .ok⟩ =
      ⟨some (.created la ln), true, some (la, ln)⟩ := rfl

/-- C9 (counterexample): when `Sound.create` fails and the compensating
unlink also fails, the 500 `Failed to save recording` response is not
sent: the handler produces no response of its own. -/
theorem unlink_failure_drops_response :
    (ingest ⟨true, some 1, some 2⟩ ⟨.fail, .fail⟩).response ≠ some .saveFailed := by
  simp [ingest]

/-- C9 amended: when the metadata write fails and the compensating
unlink then also fails, the unlink rejection escapes the catch block, so
the handler sends no response at all (in particular not the 500
`Failed to save recording` one) and the orphaned blob survives. -/
theorem ingest_unlink_failure (la ln : ℝ) :
    ingest ⟨true, some la, some ln⟩ ⟨.fail, .fail⟩ = ⟨none, true, none⟩ := rfl

/-- The multer `fileFilter` allow-list (src/server.js line 86). -/
def allowedTypes : List String := ["audio/mpeg", "audio/wav", "audio/webm"]

/-- The `fileFilter` callback: accept exactly the allow-listed MIME
types, otherwise pass an `Invalid file type` error. -/
def fileFilterAccepts (mimetype : String) : Bool := allowedTypes.contains mimetype

/-- The configured multer size limit, 10 MiB (src/server.js line 98). -/
def fileSizeLimit : ℕ := 10 * 1024 * 1024

/-- How an upload leaves the multer middleware. -/
inductive StoreOutcome
  | stored        -- blob written, request reaches the route handler
  | invalidType   -- fileFilter error
  | tooLarge      -- LIMIT_FILE_SIZE error

/-- Result of the multer stage: its outcome paired with whether the blob
was committed to the upload directory. -/
structure StoreResult where
  outcome : StoreOutcome
  blobWritten : Bool

/-- Modelled from the spec: multer itself is an external collaborator
whose driver is not in src/. Per the Blob Store contract of the spec it
consults the configured `fileFilter` and `fileSize` limit and rejects
the payload before committing bytes; the filter predicate and the limit
value are taken verbatim from src/server.js. -/
def blobStore (mimetype : String) (size : ℕ) : StoreResult :=
  if ¬ fileFilterAccepts mimetype then ⟨.invalidType, false⟩
  else if fileSizeLimit < size then ⟨.tooLarge, false⟩
  else ⟨.stored, true⟩

/-- The final error-handling middleware (src/server.js lines 187-190):
every error that reaches it is answered with HTTP 500 and the body
`Something went wrong!`, whatever the error was. -/
def errorMiddleware (_err : StoreOutcome) : ℕ × String :=
  (500, "Something went wrong!")

/-- The HTTP response produced when multer rejects the upload: the error
is handed to `next` and lands in the final error middleware; `none`
means multer accepted and the route handler runs instead. -/
def uploadRejectionResponse (mimetype : String) (size : ℕ) : Option (ℕ × String) :=
  match (blobStore mimetype size).outcome with
  | .stored => none
  | .invalidType => some (errorMiddleware .invalidType)
  | .tooLarge => some (errorMiddleware .tooLarge)

/-- C8 (counterexample): an `audio/ogg` upload is rejected without a
blob being written, but the resulting response is HTTP 500
`Something went wrong!` from the error middleware, not a 400
ValidationError and not a 413. -/
theorem ogg_upload_rejected_with_500 :
    (blobStore "audio/ogg" 5000).blobWritten = false ∧
    uploadRejectionResponse "audio/ogg" 5000 = some (500, "Something went wrong!") ∧
    (500 : ℕ) ≠ 400 ∧ (500 : ℕ) ≠ 413 := by
  refine ⟨by decide, by decide, by norm_num, by norm_num⟩

/-- C8 amended: an upload whose MIME type is outside the allow-list, or
whose size exceeds the 10 MiB limit, is rejected with no blob written,
and the client receives HTTP 500 `Something went wrong!` from the error
middleware (not a 400/413). -/
theorem upload_gate_rejects (mimetype : String) (size : ℕ)
    (h : fileFilterAccepts mimetype = false ∨ fileSizeLimit < size) :
    (blobStore mimetype size).blobWritten = false ∧
    (blobStore mimetype size).outcome ≠ .stored ∧
    uploadRejectionResponse mimetype size = some (500, "Something went wrong!") := by
  rcases h with h | h
  · simp [blobStore, h, uploadRejectionResponse, errorMiddleware]
  · by_cases hf : fileFilterAccepts mimetype
    · simp [blobStore, hf, h, uploadRejectionResponse, errorMiddleware]
    · simp [blobStore, hf, uploadRejectionResponse, errorMiddleware]

/-- Closed instance of `upload_gate_rejects` for a small `audio/ogg`
upload. -/
theorem upload_gate_rejects_witness :
    (fileFilterAccepts "audio/ogg" = false ∨ fileSizeLimit < 5000) ∧
    ((blobStore "audio/ogg" 5000).blobWritten = false ∧
      (blobStore "audio/ogg" 5000).outcome ≠ .stored ∧
      uploadRejectionResponse "audio/ogg" 5000 = some (500, "Something went wrong!")) :=
  ⟨Or.inl (by decide), upload_gate_rejects "audio/ogg" 5000 (Or.inl (by decide))⟩

end SoundScape
